import Mathlib

/-!
# Verification of the databricks_privileges core pipeline

A shallow embedding of the repository's core logic — privilege taxonomy
(`src/abac/priviliges/priviliges.py`), resource-type resolver and request
orchestrator (`src/privileges/apply_priviliges.py`), grant reconciler
(`src/privileges/grants/grants.py`), and service-request parser
(`src/privileges/service_requests/parser.py`) — together with theorems
settling the specification claims about them.

External collaborators (the Databricks SDK workspace client) are modelled as
records of boolean-valued probe/mutation verdicts: a call that would raise an
exception is a call whose verdict is `false`.  Python dictionaries are
modelled as insertion-ordered association lists with in-place update, which
is exactly the observable behaviour of `dict` for the string keys used here.
-/

namespace DatabricksPrivileges

/-- Python `str.upper()` restricted to ASCII (every string the privilege
vocabulary can match is ASCII). -/
def strUpper (s : String) : String := String.mk (s.data.map Char.toUpper)

/-- Python `str.lower()` restricted to ASCII. -/
def strLower (s : String) : String := String.mk (s.data.map Char.toLower)

/-- Helper for `pySplit`: walk the characters, cutting at each separator. -/
def pySplitAux (sep : Char) : List Char → List Char → List String
  | [], acc => [String.mk acc.reverse]
  | c :: rest, acc =>
    if c = sep then String.mk acc.reverse :: pySplitAux sep rest []
    else pySplitAux sep rest (c :: acc)

/-- Python `str.split(sep)` for a one-character separator: split at every
occurrence, keeping empty fields (`"".split(".") == [""]`,
`"a..b".split(".") == ["a", "", "b"]`). -/
def pySplit (s : String) (sep : Char) : List String := pySplitAux sep s.data []

/-- Python `str.startswith(c)` for a one-character needle. -/
def pyStartsWith (s : String) (c : Char) : Bool :=
  match s.data with
  | [] => false
  | a :: _ => a = c

/-- Generic first-match association-list lookup; models Python `dict[k]`
(dicts built by the embedded code never hold duplicate keys, so first-match
agrees with `dict` semantics). -/
def alookup {α β : Type} [DecidableEq α] : List (α × β) → α → Option β
  | [], _ => none
  | kv :: rest, k => if kv.1 = k then some kv.2 else alookup rest k

/-- Python `d[k] = v` on an insertion-ordered dict: update the existing
entry in place if the key is present, else append a new entry. -/
def dinsert {α β : Type} [DecidableEq α] : List (α × β) → α → β → List (α × β)
  | [], k, v => [(k, v)]
  | kv :: rest, k, v => if kv.1 = k then (k, v) :: rest else kv :: dinsert rest k v

/-- The keys of a modelled dict, in insertion order. -/
def dkeys {α β : Type} (d : List (α × β)) : List α := d.map (·.1)

/-- `ObjectType` from `src/abac/priviliges/priviliges.py`.  The Python class
is an `Enum` whose members `VIEW` and `MODEL` are declared with the same
value as `TABLE` (`SecurableType.TABLE`), which makes them *aliases*: at
runtime `ObjectType.VIEW is ObjectType.TABLE` and
`ObjectType.MODEL is ObjectType.TABLE`.  We therefore give the canonical
members as constructors and define `VIEW`/`MODEL` as abbreviations equal to
`TABLE`, exactly mirroring the alias semantics. -/
inductive ObjectType : Type where
  | CATALOG | SCHEMA | TABLE | FUNCTION | VOLUME
  | PIPELINE | CONNECTION | CREDENTIAL | EXTERNAL_LOCATION
  | STORAGE_CREDENTIAL | SHARE | RECIPIENT | PROVIDER
  | CLEAN_ROOM | METASTORE | UNKNOWN
  deriving DecidableEq, Repr

/-- `ObjectType.VIEW = SecurableType.TABLE`: an enum alias of `TABLE`. -/
def ObjectType.VIEW : ObjectType := ObjectType.TABLE

/-- `ObjectType.MODEL = SecurableType.TABLE`: an enum alias of `TABLE`. -/
def ObjectType.MODEL : ObjectType := ObjectType.TABLE

/-- Every canonical member of the `ObjectType` enum. -/
def allObjectTypes : List ObjectType :=
  [.CATALOG, .SCHEMA, .TABLE, .FUNCTION, .VOLUME, .PIPELINE, .CONNECTION,
   .CREDENTIAL, .EXTERNAL_LOCATION, .STORAGE_CREDENTIAL, .SHARE, .RECIPIENT,
   .PROVIDER, .CLEAN_ROOM, .METASTORE, .UNKNOWN]

/-- The SDK `Privilege` enum (`databricks.sdk.service.catalog.Privilege`),
restricted to the members this repository's taxonomy references.  The code
only ever looks privileges up by name (`Privilege[s.upper()]`) and tests
membership in the frozensets below, so members outside this list are
observationally equivalent to a failed lookup for every code path under
verification. -/
inductive Privilege : Type where
  | USE_CATALOG | CREATE_SCHEMA | CREATE_TABLE | CREATE_VOLUME
  | CREATE_FUNCTION | CREATE_MODEL | CREATE_EXTERNAL_TABLE
  | CREATE_EXTERNAL_VOLUME | CREATE_MATERIALIZED_VIEW | ALL_PRIVILEGES
  | USE_SCHEMA | CREATE_VIEW | MODIFY | SELECT | APPLY_TAG | EXECUTE
  | READ_VOLUME | WRITE_VOLUME | READ_FILES | WRITE_FILES
  | USE_CONNECTION | USE_SHARE | SET_SHARE_PERMISSION
  | USE_PROVIDER | USE_RECIPIENT
  deriving DecidableEq, Repr

/-- `Privilege[name]`: name-indexed lookup in the SDK enum (raising
`KeyError`, i.e. `none`, when the name is unknown). -/
def privilegeOfName (name : String) : Option Privilege :=
  match name with
  | "USE_CATALOG" => some .USE_CATALOG
  | "CREATE_SCHEMA" => some .CREATE_SCHEMA
  | "CREATE_TABLE" => some .CREATE_TABLE
  | "CREATE_VOLUME" => some .CREATE_VOLUME
  | "CREATE_FUNCTION" => some .CREATE_FUNCTION
  | "CREATE_MODEL" => some .CREATE_MODEL
  | "CREATE_EXTERNAL_TABLE" => some .CREATE_EXTERNAL_TABLE
  | "CREATE_EXTERNAL_VOLUME" => some .CREATE_EXTERNAL_VOLUME
  | "CREATE_MATERIALIZED_VIEW" => some .CREATE_MATERIALIZED_VIEW
  | "ALL_PRIVILEGES" => some .ALL_PRIVILEGES
  | "USE_SCHEMA" => some .USE_SCHEMA
  | "CREATE_VIEW" => some .CREATE_VIEW
  | "MODIFY" => some .MODIFY
  | "SELECT" => some .SELECT
  | "APPLY_TAG" => some .APPLY_TAG
  | "EXECUTE" => some .EXECUTE
  | "READ_VOLUME" => some .READ_VOLUME
  | "WRITE_VOLUME" => some .WRITE_VOLUME
  | "READ_FILES" => some .READ_FILES
  | "WRITE_FILES" => some .WRITE_FILES
  | "USE_CONNECTION" => some .USE_CONNECTION
  | "USE_SHARE" => some .USE_SHARE
  | "SET_SHARE_PERMISSION" => some .SET_SHARE_PERMISSION
  | "USE_PROVIDER" => some .USE_PROVIDER
  | "USE_RECIPIENT" => some .USE_RECIPIENT
  | _ => none

/-- `PrivilegeMapping.CATALOG_PRIVILEGES` (frozensets become lists; only
membership is ever observed). -/
def CATALOG_PRIVILEGES : List Privilege :=
  [.USE_CATALOG, .CREATE_SCHEMA, .CREATE_TABLE, .CREATE_VOLUME,
   .CREATE_FUNCTION, .CREATE_MODEL, .CREATE_EXTERNAL_TABLE,
   .CREATE_EXTERNAL_VOLUME, .CREATE_MATERIALIZED_VIEW, .ALL_PRIVILEGES]

/-- `PrivilegeMapping.SCHEMA_PRIVILEGES`. -/
def SCHEMA_PRIVILEGES : List Privilege :=
  [.USE_SCHEMA, .CREATE_TABLE, .CREATE_VIEW, .CREATE_FUNCTION,
   .CREATE_VOLUME, .CREATE_MODEL, .CREATE_EXTERNAL_TABLE,
   .CREATE_EXTERNAL_VOLUME, .CREATE_MATERIALIZED_VIEW, .MODIFY,
   .ALL_PRIVILEGES]

/-- `PrivilegeMapping.TABLE_PRIVILEGES`. -/
def TABLE_PRIVILEGES : List Privilege :=
  [.SELECT, .MODIFY, .ALL_PRIVILEGES, .APPLY_TAG]

/-- `PrivilegeMapping.FUNCTION_PRIVILEGES`. -/
def FUNCTION_PRIVILEGES : List Privilege :=
  [.EXECUTE, .ALL_PRIVILEGES, .MODIFY]

/-- `PrivilegeMapping.VOLUME_PRIVILEGES`. -/
def VOLUME_PRIVILEGES : List Privilege :=
  [.READ_VOLUME, .WRITE_VOLUME, .READ_FILES, .WRITE_FILES, .ALL_PRIVILEGES]

/-- `PrivilegeMapping.CONNECTION_PRIVILEGES`. -/
def CONNECTION_PRIVILEGES : List Privilege :=
  [.USE_CONNECTION, .ALL_PRIVILEGES]

/-- `PrivilegeMapping.EXTERNAL_LOCATION_PRIVILEGES`. -/
def EXTERNAL_LOCATION_PRIVILEGES : List Privilege :=
  [.READ_FILES, .WRITE_FILES, .CREATE_EXTERNAL_TABLE, .ALL_PRIVILEGES]

/-- `PrivilegeMapping.SHARE_PRIVILEGES`. -/
def SHARE_PRIVILEGES : List Privilege :=
  [.USE_SHARE, .SET_SHARE_PERMISSION, .ALL_PRIVILEGES]

/-- `PrivilegeMapping.PROVIDER_PRIVILEGES`. -/
def PROVIDER_PRIVILEGES : List Privilege :=
  [.USE_PROVIDER, .ALL_PRIVILEGES]

/-- `PrivilegeMapping.RECIPIENT_PRIVILEGES`. -/
def RECIPIENT_PRIVILEGES : List Privilege :=
  [.USE_RECIPIENT, .ALL_PRIVILEGES]

/-- The `privilege_map` dict literal inside
`PrivilegeMapping.get_privileges_for_resource_type`.  In the Python dict the
keys `VIEW` and `MODEL` are the same enum member as `TABLE`, so those three
entries collapse to one; all three carry `TABLE_PRIVILEGES`, so first-match
lookup on this list coincides with the dict. -/
def privilege_map : List (ObjectType × List Privilege) :=
  [(.CATALOG, CATALOG_PRIVILEGES),
   (.SCHEMA, SCHEMA_PRIVILEGES),
   (.TABLE, TABLE_PRIVILEGES),
   (ObjectType.VIEW, TABLE_PRIVILEGES),
   (.FUNCTION, FUNCTION_PRIVILEGES),
   (.VOLUME, VOLUME_PRIVILEGES),
   (ObjectType.MODEL, TABLE_PRIVILEGES),
   (.CONNECTION, CONNECTION_PRIVILEGES),
   (.EXTERNAL_LOCATION, EXTERNAL_LOCATION_PRIVILEGES),
   (.SHARE, SHARE_PRIVILEGES),
   (.PROVIDER, PROVIDER_PRIVILEGES),
   (.RECIPIENT, RECIPIENT_PRIVILEGES),
   (.PIPELINE, [.ALL_PRIVILEGES]),
   (.CREDENTIAL, [.ALL_PRIVILEGES]),
   (.STORAGE_CREDENTIAL, [.ALL_PRIVILEGES]),
   (.CLEAN_ROOM, [.ALL_PRIVILEGES]),
   (.METASTORE, [.ALL_PRIVILEGES]),
   (.UNKNOWN, [])]

/-- `PrivilegeMapping.get_privileges_for_resource_type`:
`privilege_map.get(object_type, frozenset())`. -/
def get_privileges_for_resource_type (object_type : ObjectType) : List Privilege :=
  (alookup privilege_map object_type).getD []

/-- `PrivilegeMapping.get_all_privileges`: the set union of the ten
class-level privilege constants (concatenation; only membership is
observed). -/
def get_all_privileges : List Privilege :=
  CATALOG_PRIVILEGES ++ SCHEMA_PRIVILEGES ++ TABLE_PRIVILEGES ++
  FUNCTION_PRIVILEGES ++ VOLUME_PRIVILEGES ++ CONNECTION_PRIVILEGES ++
  EXTERNAL_LOCATION_PRIVILEGES ++ SHARE_PRIVILEGES ++ PROVIDER_PRIVILEGES ++
  RECIPIENT_PRIVILEGES

/-- `PrivilegeMapping.validate_privilege` (also exposed unchanged as
`StandardPrivileges.validate_privilege`).  `privilege.upper()` is Python's
case normalization (ASCII on every string the vocabulary can match);
`Privilege[...]` raising `KeyError` is the `none` branch.  A Python enum
member is always truthy, so the guard `object_type and object_type !=
ObjectType.UNKNOWN` reduces to the inequality test. -/
def validate_privilege (privilege : String) (object_type : ObjectType) : Bool :=
  match privilegeOfName (strUpper privilege) with
  | none => false
  | some privilege_enum =>
    if object_type ≠ ObjectType.UNKNOWN then
      (get_privileges_for_resource_type object_type).contains privilege_enum
    else
      get_all_privileges.contains privilege_enum

/-- The `type_mapping` dict literal inside
`PrivilegeGrantManager._get_securable_type` (`src/privileges/grants/grants.py`).
The `VIEW` key is the same enum member as `TABLE` and carries the same
value, so first-match lookup coincides with the dict. -/
def type_mapping : List (ObjectType × String) :=
  [(.CATALOG, "catalog"), (.SCHEMA, "schema"), (.TABLE, "table"),
   (ObjectType.VIEW, "table"), (.FUNCTION, "function"), (.VOLUME, "volume")]

/-- `PrivilegeGrantManager._get_securable_type`:
`type_mapping.get(object_type, "table")`. -/
def get_securable_type (object_type : ObjectType) : String :=
  (alookup type_mapping object_type).getD "table"

/-- One invocation of `workspace_client.grants.update(securable_type,
full_name, changes=[PermissionsChange(principal, add, remove)])`.  The code
always passes a one-element `changes` list, so the single change is
flattened into the call record. -/
structure GrantCall where
  securableType : String
  fullName : String
  principal : String
  add : Option (List Privilege)
  remove : Option (List Privilege)
  deriving DecidableEq, Repr

/-- The Databricks SDK `WorkspaceClient`, abstracted to the verdicts of the
calls the core makes.  Each field answers "did this call return normally?";
a raised exception is the `false` verdict (every call site catches it). -/
structure WorkspaceClient where
  catalogsGetOk : String → Bool
  schemasGetOk : String → Bool
  tablesGetOk : String → Bool
  volumesReadOk : String → Bool
  functionsGetOk : String → Bool
  grantsUpdateOk : GrantCall → Bool

/-- `determine_uc_object_type` from `src/privileges/apply_priviliges.py`.
Each `workspace_client.…get/read` probe is wrapped in `try/except` treating
any raised error as "not this type"; the outer `try/except` (whose body is
otherwise pure) likewise degrades to `UNKNOWN` and is subsumed by the
boolean-probe model. -/
def determine_uc_object_type (client : WorkspaceClient) (object_path : String) :
    ObjectType :=
  if object_path = "" then .UNKNOWN
  else
    let parts := pySplit object_path '.'
    if parts.length = 1 then
      if client.catalogsGetOk (parts.getD 0 "") then .CATALOG
      else if pyStartsWith object_path '/' then ObjectType.VOLUME
      else .UNKNOWN
    else if parts.length = 2 then
      if client.schemasGetOk (parts.getD 0 "" ++ "." ++ parts.getD 1 "") then .SCHEMA
      else .UNKNOWN
    else if parts.length = 3 then
      let full_name := parts.getD 0 "" ++ "." ++ parts.getD 1 "" ++ "." ++ parts.getD 2 ""
      if client.tablesGetOk full_name then ObjectType.TABLE
      else if client.volumesReadOk full_name then ObjectType.VOLUME
      else if client.functionsGetOk full_name then ObjectType.FUNCTION
      else .UNKNOWN
    else .UNKNOWN

/-- `PrivilegeGrantManager._grant_parent_use_privileges`
(`src/privileges/grants/grants.py`, lines 85–145).  Returns the
`parent_results` dict together with the trace of `grants.update` calls made.
`_parse_resource_hierarchy` is inlined: `hierarchy['catalog']` is
`parts[0]` (present iff the split is non-empty), `hierarchy['schema']` is
`f"{parts[0]}.{parts[1]}"` when there are at least two parts; the Python
`if hierarchy[...]:` guards additionally test string truthiness (non-empty).
The outer `try/except` can only catch exceptions of the pure hierarchy
parsing, which cannot raise. -/
def grantParentUsePrivileges (client : WorkspaceClient) (resource_name : String)
    (object_type : ObjectType) (principal : String) :
    List (String × Bool) × List GrantCall :=
  if object_type ∈ [ObjectType.TABLE, ObjectType.VIEW, ObjectType.FUNCTION,
      ObjectType.VOLUME] then
    let parts := pySplit resource_name '.'
    let catalog : Option String :=
      if 1 ≤ parts.length then some (parts.getD 0 "") else none
    let schema : Option String :=
      if 2 ≤ parts.length then some (parts.getD 0 "" ++ "." ++ parts.getD 1 "") else none
    let step1 : List (String × Bool) × List GrantCall :=
      match catalog with
      | some c =>
        if c ≠ "" then
          let call : GrantCall :=
            { securableType := "catalog", fullName := c, principal := principal,
              add := some [Privilege.USE_CATALOG], remove := none }
          (dinsert [] ("USE_CATALOG on " ++ c) (client.grantsUpdateOk call), [call])
        else ([], [])
      | none => ([], [])
    match schema with
    | some s =>
      if s ≠ "" then
        let call : GrantCall :=
          { securableType := "schema", fullName := s, principal := principal,
            add := some [Privilege.USE_SCHEMA], remove := none }
        (dinsert step1.1 ("USE_SCHEMA on " ++ s) (client.grantsUpdateOk call),
         step1.2 ++ [call])
      else step1
    | none => step1
  else ([], [])

/-- The `valid_privileges` list accumulated by the validation loop of
`apply_multiple_privileges`: the requested privileges, in order, that pass
`validate_privilege_for_resource` (which delegates to
`StandardPrivileges.validate_privilege`). -/
def validSubset (object_type : ObjectType) (privileges : List String) : List String :=
  privileges.filter (fun p => validate_privilege p object_type)

/-- The `privilege_enums` list of `apply_multiple_privileges`: each valid
privilege converted with `Privilege[privilege.upper()]`, skipping (dead in
practice) any name the enum lookup rejects. -/
def mainEnums (object_type : ObjectType) (privileges : List String) : List Privilege :=
  (validSubset object_type privileges).filterMap (fun p => privilegeOfName (strUpper p))

/-- The single batch `grants.update` call of `apply_multiple_privileges`
(lines 204–214): the whole valid subset as one add-or-remove change-set. -/
def mainGrantCall (resource_name : String) (object_type : ObjectType)
    (principal : String) (privileges : List String) (is_add : Bool) : GrantCall :=
  { securableType := get_securable_type object_type
    fullName := resource_name
    principal := principal
    add := if is_add then some (mainEnums object_type privileges) else none
    remove := if is_add then none else some (mainEnums object_type privileges) }

/-- `PrivilegeGrantManager.apply_multiple_privileges`
(`src/privileges/grants/grants.py`, lines 147–228).  Returns the `results`
dict together with the trace of every `grants.update` call made (ancestor
cascade first, then the batch call).  The validation loop writes
`results[privilege] = False` in both branches, so it is one fold; the
success branch rewrites every valid privilege to `True`, the `except`
branch rewrites them to `False`. -/
def apply_multiple_privileges (client : WorkspaceClient) (resource_name : String)
    (object_type : ObjectType) (principal : String) (privileges : List String)
    (is_add : Bool) : List (String × Bool) × List GrantCall :=
  let parent : List (String × Bool) × List GrantCall :=
    if is_add then grantParentUsePrivileges client resource_name object_type principal
    else ([], [])
  let results1 : List (String × Bool) :=
    privileges.foldl (fun r p => dinsert r p false) parent.1
  let valid_privileges := validSubset object_type privileges
  if valid_privileges = [] then (results1, parent.2)
  else
    let privilege_enums := mainEnums object_type privileges
    if privilege_enums = [] then (results1, parent.2)
    else
      let call := mainGrantCall resource_name object_type principal privileges is_add
      let ok := client.grantsUpdateOk call
      let results2 := valid_privileges.foldl (fun r p => dinsert r p ok) results1
      (results2, parent.2 ++ [call])

/-- A parsed YAML value, as handed to the parser by the (excluded) file
loader: strings, numbers, booleans, null, sequences and string-keyed maps.
Python dicts are insertion-ordered association lists here. -/
inductive Yaml : Type where
  | str (s : String)
  | num (n : Int)
  | bool (b : Bool)
  | null
  | seq (xs : List Yaml)
  | map (kvs : List (String × Yaml))

/-- `Principal` dataclass from `src/privileges/service_requests/parser.py`.
The annotations say `str`, but Python does not enforce them and the parser
stores whatever values the document held, so the fields are `Yaml`. -/
structure Principal where
  type : Yaml
  id : Yaml

/-- `ServiceRequestItem` dataclass (same caveat on field types). -/
structure ServiceRequestItem where
  principal : Principal
  resource : Yaml
  privileges : List Yaml

/-- `ServiceRequest` dataclass (same caveat on field types). -/
structure ServiceRequest where
  name : Yaml
  request_type : Yaml
  request_status : Yaml
  requests : List ServiceRequestItem
  file_info : Yaml

/-- The `ValueError`s raised by `ServiceRequestParser._parse_yaml_content`
(the spec's `SchemaError`), one constructor per `raise` site, carrying the
data interpolated into the message. -/
inductive ParseError : Type where
  | missingRequiredKeys (missing : List String)
  | requestsMustBeList
  | itemNotDict (i : Nat)
  | itemMissingKeys (i : Nat) (missing : List String)
  | principalNotDict (i : Nat)
  | principalMissingTypeId (i : Nat)
  deriving DecidableEq, Repr

/-- `self.required_keys` of `ServiceRequestParser`. -/
def required_keys : List String :=
  ["request-name", "request-type", "request-status", "requests"]

/-- `self.required_request_keys` of `ServiceRequestParser`. -/
def required_request_keys : List String := ["principal", "resource"]

/-- Join with `"."`; reduction-friendly replacement for
`String.intercalate`. -/
def joinDots : List String → String
  | [] => ""
  | [x] => x
  | x :: rest => x ++ "." ++ joinDots rest

/-- Python `pathlib.Path(p).name` for ordinary file paths: the last
non-empty `/`-separated component. -/
def pathName (p : String) : String :=
  (((pySplit p '/').filter (fun c => c ≠ "")).getLast?).getD ""

/-- Python `pathlib.Path(p).stem`: the name with its last suffix removed
(a leading dot alone, as in `.bashrc`, is not a suffix). -/
def pathStem (p : String) : String :=
  let n := pathName p
  let ps := pySplit n '.'
  if ps.length ≤ 1 then n
  else if ps.getD 0 "" = "" ∧ ps.length = 2 then n
  else joinDots ps.dropLast

/-- The privilege-shape coercion of `_parse_yaml_content`:
`request_data.get("privileges", [])`, a bare string becomes a one-element
list, any other non-list shape becomes the empty list. -/
def parsePrivileges (v : Option Yaml) : List Yaml :=
  match v with
  | some (.str s) => [.str s]
  | some (.seq xs) => xs
  | some _ => []
  | none => []

/-- The `for i, request_data in enumerate(requests_data)` loop of
`_parse_yaml_content`, raising (returning) the first item error. -/
def parseRequestItems (i : Nat) :
    List Yaml → Except ParseError (List ServiceRequestItem)
  | [] => .ok []
  | y :: rest =>
    match y with
    | .map request_data =>
      let missing := required_request_keys.filter
        (fun k => (alookup request_data k).isNone)
      if missing ≠ [] then .error (.itemMissingKeys i missing)
      else
        match (alookup request_data "principal").getD .null with
        | .map principal_data =>
          if (alookup principal_data "type").isNone ||
              (alookup principal_data "id").isNone then
            .error (.principalMissingTypeId i)
          else
            let principal : Principal :=
              { type := (alookup principal_data "type").getD .null
                id := (alookup principal_data "id").getD .null }
            let item : ServiceRequestItem :=
              { principal := principal
                resource := (alookup request_data "resource").getD .null
                privileges := parsePrivileges (alookup request_data "privileges") }
            match parseRequestItems (i + 1) rest with
            | .ok tail => .ok (item :: tail)
            | .error e => .error e
        | _ => .error (.principalNotDict i)
    | _ => .error (.itemNotDict i)

/-- `ServiceRequestParser._parse_yaml_content`
(`src/privileges/service_requests/parser.py`, lines 127–195). -/
def parse_yaml_content (yaml_content : List (String × Yaml)) (file_path : String) :
    Except ParseError ServiceRequest :=
  let missing_keys := required_keys.filter
    (fun k => (alookup yaml_content k).isNone)
  if missing_keys ≠ [] then .error (.missingRequiredKeys missing_keys)
  else
    match (alookup yaml_content "requests").getD .null with
    | .seq requests_data =>
      match parseRequestItems 0 requests_data with
      | .error e => .error e
      | .ok requests =>
        .ok { name := (alookup yaml_content "request-name").getD .null
              request_type := (alookup yaml_content "request-type").getD .null
              request_status := (alookup yaml_content "request-status").getD .null
              requests := requests
              file_info := (alookup yaml_content "_file_info").getD
                (.map [("filename", .str (pathName file_path)),
                       ("filepath", .str file_path),
                       ("stem", .str (pathStem file_path))]) }
    | _ => .error .requestsMustBeList

/-- The Python exceptions the orchestrator's per-item `try/except` can
absorb: in this model only the `AttributeError` raised by
`privilege.upper()` on a non-string privilege entry (the resolver swallows
all of its own errors). -/
inductive PyErr : Type where
  | attrError
  deriving DecidableEq, Repr

/-- The `results` dict of `validate_privileges_for_resource_type`.  The
`"suggestions"` entry is initialised to `{}` and never written, so it is
omitted. -/
structure ValidationResults where
  valid_privileges : List String
  invalid_privileges : List String
  deriving DecidableEq, Repr

/-- The validation loop of `validate_privileges_for_resource_type`
(`src/privileges/apply_priviliges.py`, lines 112–118).  A non-string
privilege makes `privilege.upper()` raise `AttributeError` (only `KeyError`
is caught inside `validate_privilege`), aborting the whole call. -/
def validatePrivilegesLoop (object_type : ObjectType) :
    List Yaml → ValidationResults → Except PyErr ValidationResults
  | [], acc => .ok acc
  | .str s :: rest, acc =>
    if validate_privilege s object_type then
      validatePrivilegesLoop object_type rest
        { acc with valid_privileges := acc.valid_privileges ++ [s] }
    else
      validatePrivilegesLoop object_type rest
        { acc with invalid_privileges := acc.invalid_privileges ++ [s] }
  | _ :: _, _ => .error .attrError

/-- `validate_privileges_for_resource_type`
(`src/privileges/apply_priviliges.py`, lines 94–120). -/
def validate_privileges_for_resource_type (privileges : List Yaml)
    (object_type : ObjectType) : Except PyErr ValidationResults :=
  if privileges.isEmpty then .ok { valid_privileges := [], invalid_privileges := [] }
  else validatePrivilegesLoop object_type privileges
    { valid_privileges := [], invalid_privileges := [] }

/-- Python f-string conversion of a parsed value.  Only the string case is
ever reached by the claims; containers render as their Python repr, which no
downstream check inspects, so they are collapsed to placeholder text. -/
def pyStr (y : Yaml) : String :=
  match y with
  | .str s => s
  | .num n => toString n
  | .bool b => if b then "True" else "False"
  | .null => "None"
  | .seq _ => "<list>"
  | .map _ => "<dict>"

/-- `determine_uc_object_type` as invoked by the orchestrator on the raw
`request_item.resource`.  A non-string resource is either falsy (early
`UNKNOWN`) or makes `object_path.split` raise inside the resolver's
catch-all `try/except` (degrading to `UNKNOWN`), so every non-string
resolves to `UNKNOWN`. -/
def determineResourceType (client : WorkspaceClient) (resource : Yaml) : ObjectType :=
  match resource with
  | .str s => determine_uc_object_type client s
  | _ => .UNKNOWN

/-- The argument tuple of one `grant_manager.apply_multiple_privileges`
invocation made by the orchestrator. -/
structure GrantInvocation where
  resource_name : String
  object_type : ObjectType
  principal : String
  privileges : List String
  is_add : Bool
  deriving DecidableEq, Repr

/-- What happened to one request item inside the orchestrator's loop:
skipped for lack of privileges, absorbed a raised error (`except` branch,
`continue`), validated only (dry-run or nothing valid), or validated and
reconciled (carrying the reconciler's results and call trace). -/
inductive ItemOutcome : Type where
  | skippedNoPrivileges
  | itemError
  | validatedOnly (vr : ValidationResults)
  | applied (vr : ValidationResults) (inv : GrantInvocation)
      (result : List (String × Bool) × List GrantCall)
  deriving DecidableEq, Repr

/-- The body of the `for i, request_item in enumerate(service_request.requests)`
loop of `apply_service_request_privileges`
(`src/privileges/apply_priviliges.py`, lines 145–181).  The `try/except`
around resolution and validation maps a raised error to `itemError`
(logged, `continue`). -/
def processRequestItem (client : WorkspaceClient) (is_add_operation : Bool)
    (dry_run : Bool) (request_item : ServiceRequestItem) : ItemOutcome :=
  if request_item.privileges.isEmpty then .skippedNoPrivileges
  else
    let object_type := determineResourceType client request_item.resource
    match validate_privileges_for_resource_type request_item.privileges object_type with
    | .error _ => .itemError
    | .ok validation_results =>
      if dry_run = false ∧ validation_results.valid_privileges ≠ [] then
        let principal := pyStr request_item.principal.id
        let inv : GrantInvocation :=
          { resource_name := pyStr request_item.resource
            object_type := object_type
            principal := principal
            privileges := validation_results.valid_privileges
            is_add := is_add_operation }
        .applied validation_results inv
          (apply_multiple_privileges client inv.resource_name object_type principal
            validation_results.valid_privileges is_add_operation)
      else .validatedOnly validation_results

/-- The orchestrator's item loop: one outcome per item, never
short-circuiting. -/
def applyRequestItemsLoop (client : WorkspaceClient) (is_add_operation : Bool)
    (dry_run : Bool) : List ServiceRequestItem → List ItemOutcome
  | [] => []
  | item :: rest =>
    processRequestItem client is_add_operation dry_run item ::
      applyRequestItemsLoop client is_add_operation dry_run rest

/-- `apply_service_request_privileges`
(`src/privileges/apply_priviliges.py`, lines 123–184).
`is_add_operation = service_request.request_status.lower() == "active"`; a
non-string status makes `.lower()` raise `AttributeError` out of the whole
call (it is outside the per-item `try`). -/
def apply_service_request_privileges (service_request : ServiceRequest)
    (client : WorkspaceClient) (dry_run : Bool) :
    Except PyErr (List ItemOutcome) :=
  match service_request.request_status with
  | .str status =>
    .ok (applyRequestItemsLoop client (strLower status == "active") dry_run
      service_request.requests)
  | _ => .error .attrError

/-! ## Concrete collaborator instances and documents (witness inputs) -/

/-- A collaborator for which every probe and every grant call succeeds. -/
def allTrueClient : WorkspaceClient :=
  { catalogsGetOk := fun _ => true, schemasGetOk := fun _ => true,
    tablesGetOk := fun _ => true, volumesReadOk := fun _ => true,
    functionsGetOk := fun _ => true, grantsUpdateOk := fun _ => true }

/-- A collaborator whose grant mutations all fail (raise). -/
def grantsFailClient : WorkspaceClient :=
  { catalogsGetOk := fun _ => true, schemasGetOk := fun _ => true,
    tablesGetOk := fun _ => true, volumesReadOk := fun _ => true,
    functionsGetOk := fun _ => true, grantsUpdateOk := fun _ => false }

/-- A collaborator where exactly the catalog-level grant calls fail:
exercises the independence of the two ancestor grant attempts. -/
def catalogGrantFailClient : WorkspaceClient :=
  { catalogsGetOk := fun _ => true, schemasGetOk := fun _ => true,
    tablesGetOk := fun _ => true, volumesReadOk := fun _ => true,
    functionsGetOk := fun _ => true,
    grantsUpdateOk := fun call => !(call.securableType == "catalog") }

/-- A collaborator where only volume probes succeed. -/
def volumeOnlyClient : WorkspaceClient :=
  { catalogsGetOk := fun _ => false, schemasGetOk := fun _ => false,
    tablesGetOk := fun _ => false, volumesReadOk := fun _ => true,
    functionsGetOk := fun _ => false, grantsUpdateOk := fun _ => true }

/-- A three-item service request whose middle item carries a non-string
privilege entry (so its validation raises `AttributeError`), with
request-status `"ACTIVE"`. -/
def sampleServiceRequest : ServiceRequest :=
  { name := .str "R", request_type := .str "access",
    request_status := .str "ACTIVE",
    requests := [
      { principal := { type := .str "user", id := .str "u1" },
        resource := .str "c.s.t", privileges := [.str "SELECT"] },
      { principal := { type := .str "user", id := .str "u2" },
        resource := .str "c.s.t2", privileges := [.num 1] },
      { principal := { type := .str "user", id := .str "u3" },
        resource := .str "c.s.t3", privileges := [.str "MODIFY"] }],
    file_info := .null }

/-- A well-formed service-request document for parser witnesses. -/
def sampleDoc : List (String × Yaml) :=
  [("request-name", .str "R"), ("request-type", .str "access"),
   ("request-status", .str "active"),
   ("requests", .seq [.map [("principal", .map [("type", .str "user"),
      ("id", .str "u1")]), ("resource", .str "c.s.t"),
      ("privileges", .str "SELECT")]])]

/-- The fixed use-catalog grant call the cascade makes for a resource. -/
def catUseCall (resource_name principal : String) : GrantCall :=
  { securableType := "catalog",
    fullName := (pySplit resource_name '.').getD 0 "",
    principal := principal,
    add := some [Privilege.USE_CATALOG], remove := none }

/-- The fixed use-schema grant call the cascade makes for a resource. -/
def schUseCall (resource_name principal : String) : GrantCall :=
  { securableType := "schema",
    fullName := (pySplit resource_name '.').getD 0 "" ++ "." ++
      (pySplit resource_name '.').getD 1 "",
    principal := principal,
    add := some [Privilege.USE_SCHEMA], remove := none }

/-- The synthetic outcome key of the use-catalog cascade attempt. -/
def catUseKey (resource_name : String) : String :=
  "USE_CATALOG on " ++ (pySplit resource_name '.').getD 0 ""

/-- The synthetic outcome key of the use-schema cascade attempt. -/
def schUseKey (resource_name : String) : String :=
  "USE_SCHEMA on " ++ ((pySplit resource_name '.').getD 0 "" ++ "." ++
    (pySplit resource_name '.').getD 1 "")

/-- The union of every resource type's legal privilege set — the spec's
description of the Unknown-type fallback, stated for comparison with the
code's `get_all_privileges`. -/
def unionAllTypePrivileges : List Privilege :=
  (allObjectTypes.map get_privileges_for_resource_type).flatten

/-- The report computed on `sampleServiceRequest` with every collaborator
call succeeding, non-dry-run. -/
def sampleReport : List ItemOutcome :=
  match apply_service_request_privileges sampleServiceRequest allTrueClient false with
  | .ok r => r
  | .error _ => []

/-- The shape `_parse_yaml_content` demands of one element of `requests`:
a map holding `principal` and `resource`, whose `principal` is a map
holding `type` and `id`. -/
def itemShapeOk (y : Yaml) : Prop :=
  ∃ request_data, y = Yaml.map request_data ∧
    (alookup request_data "principal").isSome ∧
    (alookup request_data "resource").isSome ∧
    ∃ principal_data,
      alookup request_data "principal" = some (Yaml.map principal_data) ∧
      (alookup principal_data "type").isSome ∧
      (alookup principal_data "id").isSome

/-! ## Dictionary lemmas -/

theorem alookup_dinsert_self {α β : Type} [DecidableEq α]
    (d : List (α × β)) (k : α) (v : β) :
    alookup (dinsert d k v) k = some v := by
  induction d with
  | nil => simp [dinsert, alookup]
  | cons kv rest ih =>
    by_cases h : kv.1 = k <;> simp [dinsert, alookup, h, ih]

theorem alookup_dinsert_ne {α β : Type} [DecidableEq α]
    (d : List (α × β)) (k k' : α) (v : β) (h : k' ≠ k) :
    alookup (dinsert d k v) k' = alookup d k' := by
  have hne : ¬ k = k' := fun hh => h hh.symm
  induction d with
  | nil => simp [dinsert, alookup, hne]
  | cons kv rest ih =>
    by_cases hk : kv.1 = k
    · subst hk
      simp [dinsert, alookup, hne]
    · by_cases hk' : kv.1 = k' <;> simp [dinsert, alookup, hk, hk', ih, h]

theorem mem_dkeys_dinsert {α β : Type} [DecidableEq α]
    (d : List (α × β)) (k : α) (v : β) (a : α) :
    a ∈ dkeys (dinsert d k v) ↔ a ∈ dkeys d ∨ a = k := by
  induction d with
  | nil => simp [dinsert, dkeys]
  | cons kv rest ih =>
    by_cases h : kv.1 = k
    · subst h
      simp [dinsert, dkeys]
      tauto
    · simp [dinsert, dkeys, h] at ih ⊢
      tauto

theorem dkeys_nodup_dinsert {α β : Type} [DecidableEq α]
    (d : List (α × β)) (k : α) (v : β) (h : (dkeys d).Nodup) :
    (dkeys (dinsert d k v)).Nodup := by
  induction d with
  | nil => simp [dinsert, dkeys]
  | cons kv rest ih =>
    by_cases hk : kv.1 = k
    · subst hk
      simpa [dinsert, dkeys] using h
    · simp only [dkeys, List.map_cons, List.nodup_cons] at h
      have h1 := h.1
      have h2 := ih h.2
      simp only [dinsert, if_neg hk, dkeys, List.map_cons, List.nodup_cons]
      refine ⟨?_, h2⟩
      intro hmem
      rcases (mem_dkeys_dinsert rest k v kv.1).mp hmem with hm | hm
      · exact h1 hm
      · exact hk hm

theorem alookup_foldl_dinsert_const {α β : Type} [DecidableEq α]
    (l : List α) (d : List (α × β)) (v : β) (k : α) :
    alookup (l.foldl (fun r p => dinsert r p v) d) k =
      if k ∈ l then some v else alookup d k := by
  induction l generalizing d with
  | nil => simp
  | cons p rest ih =>
    simp only [List.foldl_cons]
    rw [ih]
    by_cases hk : k ∈ rest
    · simp [hk, List.mem_cons]
    · by_cases hp : k = p
      · subst hp
        simp [hk, alookup_dinsert_self]
      · simp [hk, hp, alookup_dinsert_ne d p k v hp]

theorem mem_dkeys_foldl_dinsert {α β : Type} [DecidableEq α]
    (l : List α) (d : List (α × β)) (v : β) (a : α) :
    a ∈ dkeys (l.foldl (fun r p => dinsert r p v) d) ↔ a ∈ dkeys d ∨ a ∈ l := by
  induction l generalizing d with
  | nil => simp
  | cons p rest ih =>
    simp only [List.foldl_cons]
    rw [ih, mem_dkeys_dinsert]
    simp [List.mem_cons]
    tauto

theorem dkeys_nodup_foldl_dinsert {α β : Type} [DecidableEq α]
    (l : List α) (d : List (α × β)) (v : β) (h : (dkeys d).Nodup) :
    (dkeys (l.foldl (fun r p => dinsert r p v) d)).Nodup := by
  induction l generalizing d with
  | nil => simpa
  | cons p rest ih =>
    simp only [List.foldl_cons]
    exact ih _ (dkeys_nodup_dinsert d p v h)

/-! ## String and split lemmas -/

theorem pySplitAux_ne_nil (sep : Char) (l acc : List Char) :
    pySplitAux sep l acc ≠ [] := by
  induction l generalizing acc with
  | nil => simp [pySplitAux]
  | cons c rest ih =>
    by_cases h : c = sep <;> simp [pySplitAux, h, ih]

theorem one_le_length_pySplit (s : String) (sep : Char) :
    1 ≤ (pySplit s sep).length := by
  have h := pySplitAux_ne_nil sep s.data []
  cases hx : pySplitAux sep s.data []
  · exact absurd hx h
  · simp [pySplit, hx]

theorem append_dot_ne_empty (a b : String) : a ++ "." ++ b ≠ "" := by
  intro h
  have h2 := congrArg String.data h
  simp [String.data_append] at h2

theorem useCatalogKey_ne_useSchemaKey (a b : String) :
    "USE_CATALOG on " ++ a ≠ "USE_SCHEMA on " ++ b := by
  intro h
  have h2 := congrArg String.data h
  simp [String.data_append] at h2

/-! ## Validation lemmas -/

theorem privilegeOfName_isSome_of_validate {p : String} {t : ObjectType}
    (h : validate_privilege p t = true) :
    ∃ e, privilegeOfName (strUpper p) = some e := by
  unfold validate_privilege at h
  cases hx : privilegeOfName (strUpper p) with
  | none => rw [hx] at h; exact absurd h (by simp)
  | some e => exact ⟨e, rfl⟩

theorem mainEnums_ne_nil {t : ObjectType} {privileges : List String}
    (h : validSubset t privileges ≠ []) : mainEnums t privileges ≠ [] := by
  obtain ⟨p, hp⟩ := List.exists_mem_of_ne_nil _ h
  have hval : validate_privilege p t = true := by
    have := List.mem_filter.mp hp
    simpa using this.2
  obtain ⟨e, he⟩ := privilegeOfName_isSome_of_validate hval
  have hmem : e ∈ mainEnums t privileges :=
    List.mem_filterMap.mpr ⟨p, hp, he⟩
  exact List.ne_nil_of_mem hmem

/-! ## Reconciler unfolding lemmas -/

/-- When at least one privilege validates, `apply_multiple_privileges`
reaches the batch call: outcome dict and trace in closed form. -/
theorem apply_multiple_privileges_eq_of_valid_ne_nil
    (client : WorkspaceClient) (resource_name : String) (object_type : ObjectType)
    (principal : String) (privileges : List String) (is_add : Bool)
    (h : validSubset object_type privileges ≠ []) :
    apply_multiple_privileges client resource_name object_type principal privileges
        is_add =
      ((validSubset object_type privileges).foldl
        (fun r p => dinsert r p (client.grantsUpdateOk
          (mainGrantCall resource_name object_type principal privileges is_add)))
        (privileges.foldl (fun r p => dinsert r p false)
          (if is_add then
            (grantParentUsePrivileges client resource_name object_type principal).1
          else [])),
       (if is_add then
          (grantParentUsePrivileges client resource_name object_type principal).2
        else []) ++
         [mainGrantCall resource_name object_type principal privileges is_add]) := by
  unfold apply_multiple_privileges
  simp only [if_neg h, if_neg (mainEnums_ne_nil h)]
  cases is_add <;> simp

/-- When no privilege validates, `apply_multiple_privileges` stops before
the batch call. -/
theorem apply_multiple_privileges_eq_of_valid_nil
    (client : WorkspaceClient) (resource_name : String) (object_type : ObjectType)
    (principal : String) (privileges : List String) (is_add : Bool)
    (h : validSubset object_type privileges = []) :
    apply_multiple_privileges client resource_name object_type principal privileges
        is_add =
      (privileges.foldl (fun r p => dinsert r p false)
        (if is_add then
          (grantParentUsePrivileges client resource_name object_type principal).1
        else []),
       if is_add then
         (grantParentUsePrivileges client resource_name object_type principal).2
       else []) := by
  unfold apply_multiple_privileges
  simp only [if_pos h]
  cases is_add <;> simp

/-! ## Ancestor-cascade lemmas -/

theorem grantParent_not_eligible (client : WorkspaceClient) (resource_name : String)
    (object_type : ObjectType) (principal : String)
    (h : object_type ∉ [ObjectType.TABLE, ObjectType.VIEW, ObjectType.FUNCTION,
      ObjectType.VOLUME]) :
    grantParentUsePrivileges client resource_name object_type principal = ([], []) := by
  unfold grantParentUsePrivileges
  simp [h]

/-- Every key the ancestor cascade writes has the synthetic
`"<privilege> on <ancestor>"` form. -/
theorem mem_dkeys_grantParent (client : WorkspaceClient) (resource_name : String)
    (object_type : ObjectType) (principal : String) (k : String)
    (hk : k ∈ dkeys (grantParentUsePrivileges client resource_name object_type
      principal).1) :
    ∃ a, k = "USE_CATALOG on " ++ a ∨ k = "USE_SCHEMA on " ++ a := by
  unfold grantParentUsePrivileges at hk
  split at hk
  · dsimp only at hk
    split at hk
    · split at hk
      · rw [mem_dkeys_dinsert] at hk
        rcases hk with hk | hk
        · split at hk
          · split at hk
            · simp [dinsert, dkeys] at hk
              exact ⟨_, Or.inl hk⟩
            · simp [dkeys] at hk
          · simp [dkeys] at hk
        · exact ⟨_, Or.inr hk⟩
      · split at hk
        · split at hk
          · simp [dinsert, dkeys] at hk
            exact ⟨_, Or.inl hk⟩
          · simp [dkeys] at hk
        · simp [dkeys] at hk
    · split at hk
      · split at hk
        · simp [dinsert, dkeys] at hk
          exact ⟨_, Or.inl hk⟩
        · simp [dkeys] at hk
      · simp [dkeys] at hk
  · simp [dkeys] at hk

/-- Every call the ancestor cascade makes targets a catalog or a schema. -/
theorem grantParent_calls_securable (client : WorkspaceClient)
    (resource_name : String) (object_type : ObjectType) (principal : String)
    (c : GrantCall)
    (hc : c ∈ (grantParentUsePrivileges client resource_name object_type
      principal).2) :
    c.securableType = "catalog" ∨ c.securableType = "schema" := by
  unfold grantParentUsePrivileges at hc
  split at hc
  · dsimp only at hc
    split at hc
    · split at hc
      · rw [List.mem_append] at hc
        rcases hc with hc | hc
        · split at hc
          · split at hc
            · simp at hc
              exact Or.inl (by rw [hc])
            · simp at hc
          · simp at hc
        · simp at hc
          exact Or.inr (by rw [hc])
      · split at hc
        · split at hc
          · simp at hc
            exact Or.inl (by rw [hc])
          · simp at hc
        · simp at hc
    · split at hc
      · split at hc
        · simp at hc
          exact Or.inl (by rw [hc])
        · simp at hc
      · simp at hc
  · simp at hc

/-- The ancestor-cascade dict never holds duplicate keys. -/
theorem dkeys_nodup_grantParent (client : WorkspaceClient) (resource_name : String)
    (object_type : ObjectType) (principal : String) :
    (dkeys (grantParentUsePrivileges client resource_name object_type
      principal).1).Nodup := by
  unfold grantParentUsePrivileges
  split
  · dsimp only
    split
    · split
      · apply dkeys_nodup_dinsert
        split
        · split
          · simp [dinsert, dkeys]
          · simp [dkeys]
        · simp [dkeys]
      · split
        · split
          · apply dkeys_nodup_dinsert
            simp [dkeys]
          · simp [dkeys]
        · simp [dkeys]
    · split
      · split
        · apply dkeys_nodup_dinsert
          simp [dkeys]
        · simp [dkeys]
      · simp [dkeys]
  · simp [dkeys]

/-- With an eligible type, at least two path segments and a non-empty
catalog segment, the cascade attempts both ancestor grants, in closed
form. -/
theorem grantParent_eligible_closed_form (client : WorkspaceClient)
    (resource_name : String) (object_type : ObjectType) (principal : String)
    (helig : object_type ∈ [ObjectType.TABLE, ObjectType.VIEW,
      ObjectType.FUNCTION, ObjectType.VOLUME])
    (h2 : 2 ≤ (pySplit resource_name '.').length)
    (h0 : (pySplit resource_name '.').getD 0 "" ≠ "") :
    grantParentUsePrivileges client resource_name object_type principal =
      (dinsert
        (dinsert []
          ("USE_CATALOG on " ++ (pySplit resource_name '.').getD 0 "")
          (client.grantsUpdateOk
            { securableType := "catalog",
              fullName := (pySplit resource_name '.').getD 0 "",
              principal := principal,
              add := some [Privilege.USE_CATALOG], remove := none }))
        ("USE_SCHEMA on " ++ ((pySplit resource_name '.').getD 0 "" ++ "." ++
          (pySplit resource_name '.').getD 1 ""))
        (client.grantsUpdateOk
          { securableType := "schema",
            fullName := (pySplit resource_name '.').getD 0 "" ++ "." ++
              (pySplit resource_name '.').getD 1 "",
            principal := principal,
            add := some [Privilege.USE_SCHEMA], remove := none }),
       [{ securableType := "catalog",
          fullName := (pySplit resource_name '.').getD 0 "",
          principal := principal,
          add := some [Privilege.USE_CATALOG], remove := none },
        { securableType := "schema",
          fullName := (pySplit resource_name '.').getD 0 "" ++ "." ++
            (pySplit resource_name '.').getD 1 "",
          principal := principal,
          add := some [Privilege.USE_SCHEMA], remove := none }]) := by
  have h1 : 1 ≤ (pySplit resource_name '.').length := le_trans (by norm_num) h2
  have hs : (pySplit resource_name '.').getD 0 "" ++ "." ++
      (pySplit resource_name '.').getD 1 "" ≠ "" := append_dot_ne_empty _ _
  have h0g : ¬ ((pySplit resource_name '.')[0]?.getD "" = "") := by
    simpa [List.getD] using h0
  have hsg : ¬ ((pySplit resource_name '.')[0]?.getD "" ++ "." ++
      (pySplit resource_name '.')[1]?.getD "" = "") := by
    simpa [List.getD] using hs
  unfold grantParentUsePrivileges
  simp only [if_pos helig, if_pos h1, if_pos h2]
  simp [h0g, hsg, dinsert, useCatalogKey_ne_useSchemaKey]

/-! ## Claim theorems -/

/-- C1: for every call to `apply_multiple_privileges`, the returned mapping
has exactly one entry for every distinct requested privilege (valid or not)
plus zero or more ancestor-cascade entries (keys of the form
`"<privilege> on <ancestor>"`); every privilege failing Taxonomy validation
is recorded `applied = false`; the batch enums contain only images of valid
requested privileges; and when anything validates the trace is the ancestor
calls followed by the single batch call carrying exactly the valid
subset. -/
theorem C1_reconciler_outcome_map (client : WorkspaceClient)
    (resource_name : String) (object_type : ObjectType) (principal : String)
    (privileges : List String) (is_add : Bool) :
    (∀ p ∈ privileges, ∃ b,
      alookup (apply_multiple_privileges client resource_name object_type
        principal privileges is_add).1 p = some b) ∧
    (dkeys (apply_multiple_privileges client resource_name object_type
      principal privileges is_add).1).Nodup ∧
    (∀ k ∈ dkeys (apply_multiple_privileges client resource_name object_type
        principal privileges is_add).1,
      k ∈ privileges ∨ ∃ a, k = "USE_CATALOG on " ++ a ∨ k = "USE_SCHEMA on " ++ a) ∧
    (∀ p ∈ privileges, validate_privilege p object_type = false →
      alookup (apply_multiple_privileges client resource_name object_type
        principal privileges is_add).1 p = some false) ∧
    (∀ e ∈ mainEnums object_type privileges, ∃ p ∈ privileges,
      validate_privilege p object_type = true ∧ privilegeOfName (strUpper p) = some e) ∧
    (validSubset object_type privileges ≠ [] →
      (apply_multiple_privileges client resource_name object_type principal
        privileges is_add).2 =
        (if is_add then
          (grantParentUsePrivileges client resource_name object_type principal).2
        else []) ++
          [mainGrantCall resource_name object_type principal privileges is_add]) := by
  have hparent_nodup :
      (dkeys (if is_add then
        (grantParentUsePrivileges client resource_name object_type principal).1
      else ([] : List (String × Bool)))).Nodup := by
    cases is_add
    · simp [dkeys]
    · simpa using dkeys_nodup_grantParent client resource_name object_type principal
  have hparent_keys : ∀ k, k ∈ dkeys (if is_add then
        (grantParentUsePrivileges client resource_name object_type principal).1
      else ([] : List (String × Bool))) →
      ∃ a, k = "USE_CATALOG on " ++ a ∨ k = "USE_SCHEMA on " ++ a := by
    cases is_add
    · simp [dkeys]
    · intro k hk
      exact mem_dkeys_grantParent client resource_name object_type principal k
        (by simpa using hk)
  have henums : ∀ e ∈ mainEnums object_type privileges, ∃ p ∈ privileges,
      validate_privilege p object_type = true ∧
      privilegeOfName (strUpper p) = some e := by
    intro e he
    obtain ⟨p, hp, hpe⟩ := List.mem_filterMap.mp he
    have hp2 := List.mem_filter.mp hp
    exact ⟨p, hp2.1, by simpa using hp2.2, hpe⟩
  by_cases hv : validSubset object_type privileges = []
  · rw [apply_multiple_privileges_eq_of_valid_nil client resource_name object_type
      principal privileges is_add hv]
    refine ⟨?_, ?_, ?_, ?_, henums, ?_⟩
    · intro p hp
      refine ⟨false, ?_⟩
      rw [alookup_foldl_dinsert_const]
      simp [hp]
    · exact dkeys_nodup_foldl_dinsert _ _ _ hparent_nodup
    · intro k hk
      rw [mem_dkeys_foldl_dinsert] at hk
      rcases hk with hk | hk
      · exact Or.inr (hparent_keys k hk)
      · exact Or.inl hk
    · intro p hp _
      rw [alookup_foldl_dinsert_const]
      simp [hp]
    · intro hne
      exact absurd hv hne
  · rw [apply_multiple_privileges_eq_of_valid_ne_nil client resource_name object_type
      principal privileges is_add hv]
    refine ⟨?_, ?_, ?_, ?_, henums, ?_⟩
    · intro p hp
      rw [alookup_foldl_dinsert_const]
      by_cases hpv : p ∈ validSubset object_type privileges
      · refine ⟨client.grantsUpdateOk (mainGrantCall resource_name object_type
          principal privileges is_add), ?_⟩
        simp [hpv]
      · refine ⟨false, ?_⟩
        rw [if_neg hpv, alookup_foldl_dinsert_const]
        simp [hp]
    · exact dkeys_nodup_foldl_dinsert _ _ _
        (dkeys_nodup_foldl_dinsert _ _ _ hparent_nodup)
    · intro k hk
      rw [mem_dkeys_foldl_dinsert] at hk
      rcases hk with hk | hk
      · rw [mem_dkeys_foldl_dinsert] at hk
        rcases hk with hk | hk
        · exact Or.inr (hparent_keys k hk)
        · exact Or.inl hk
      · exact Or.inl (List.mem_filter.mp hk).1
    · intro p hp hinvalid
      have hpv : p ∉ validSubset object_type privileges := by
        intro hmem
        have := (List.mem_filter.mp hmem).2
        simp [hinvalid] at this
      rw [alookup_foldl_dinsert_const, if_neg hpv, alookup_foldl_dinsert_const]
      simp [hp]
    · intro _
      rfl

/-- Witness for C1: `["SELECT", "BOGUS"]` on a Table — the invalid `BOGUS`
is recorded `false` and the batch carries only `SELECT`. -/
theorem C1_witness :
    alookup (apply_multiple_privileges allTrueClient "c.s.t" ObjectType.TABLE "u"
      ["SELECT", "BOGUS"] true).1 "BOGUS" = some false ∧
    (apply_multiple_privileges allTrueClient "c.s.t" ObjectType.TABLE "u"
      ["SELECT", "BOGUS"] true).2 =
      (grantParentUsePrivileges allTrueClient "c.s.t" ObjectType.TABLE "u").2 ++
        [mainGrantCall "c.s.t" ObjectType.TABLE "u" ["SELECT", "BOGUS"] true] :=
  ⟨(C1_reconciler_outcome_map allTrueClient "c.s.t" ObjectType.TABLE "u"
      ["SELECT", "BOGUS"] true).2.2.2.1 "BOGUS" (by decide) (by decide),
   by
    have h := (C1_reconciler_outcome_map allTrueClient "c.s.t" ObjectType.TABLE "u"
      ["SELECT", "BOGUS"] true).2.2.2.2.2 (by decide)
    simpa using h⟩

/-- C3: the batch outcome is all-or-nothing over the validated subset: the
trace holds exactly one batch call (no retry); if that call succeeds every
valid privilege is `true`, if it raises every valid privilege is `false`,
and no two valid privileges ever receive different outcomes. -/
theorem C3_batch_all_or_nothing (client : WorkspaceClient)
    (resource_name : String) (object_type : ObjectType) (principal : String)
    (privileges : List String) (is_add : Bool)
    (h : validSubset object_type privileges ≠ []) :
    ((apply_multiple_privileges client resource_name object_type principal
        privileges is_add).2 =
      (if is_add then
        (grantParentUsePrivileges client resource_name object_type principal).2
      else []) ++
        [mainGrantCall resource_name object_type principal privileges is_add]) ∧
    (client.grantsUpdateOk (mainGrantCall resource_name object_type principal
        privileges is_add) = true →
      ∀ p ∈ validSubset object_type privileges,
        alookup (apply_multiple_privileges client resource_name object_type
          principal privileges is_add).1 p = some true) ∧
    (client.grantsUpdateOk (mainGrantCall resource_name object_type principal
        privileges is_add) = false →
      ∀ p ∈ validSubset object_type privileges,
        alookup (apply_multiple_privileges client resource_name object_type
          principal privileges is_add).1 p = some false) ∧
    (∀ p ∈ validSubset object_type privileges,
      ∀ q ∈ validSubset object_type privileges,
        alookup (apply_multiple_privileges client resource_name object_type
          principal privileges is_add).1 p =
        alookup (apply_multiple_privileges client resource_name object_type
          principal privileges is_add).1 q) := by
  rw [apply_multiple_privileges_eq_of_valid_ne_nil client resource_name object_type
    principal privileges is_add h]
  refine ⟨rfl, ?_, ?_, ?_⟩
  · intro hok p hp
    rw [alookup_foldl_dinsert_const]
    simp [hp, hok]
  · intro hok p hp
    rw [alookup_foldl_dinsert_const]
    simp [hp, hok]
  · intro p hp q hq
    rw [alookup_foldl_dinsert_const (validSubset object_type privileges) _ _ p,
        alookup_foldl_dinsert_const (validSubset object_type privileges) _ _ q]
    simp [hp, hq]

/-- Witness for C3 at a concrete input: with a failing collaborator, the
valid privilege `SELECT` comes back `false`. -/
theorem C3_witness :
    alookup (apply_multiple_privileges grantsFailClient "c.s.t" ObjectType.TABLE
      "u" ["SELECT", "BOGUS"] true).1 "SELECT" = some false :=
  (C3_batch_all_or_nothing grantsFailClient "c.s.t" ObjectType.TABLE "u"
    ["SELECT", "BOGUS"] true (by decide)).2.2.1 (by decide) "SELECT" (by decide)

/-- C10: when no requested privilege validates, the only collaborator calls
are the ancestor-cascade ones (catalog- or schema-scoped; none at all when
`is_add` is false), and every requested privilege is reported
`applied = false`. -/
theorem C10_no_target_call_when_all_invalid (client : WorkspaceClient)
    (resource_name : String) (object_type : ObjectType) (principal : String)
    (privileges : List String) (is_add : Bool)
    (h : ∀ p ∈ privileges, validate_privilege p object_type = false) :
    ((apply_multiple_privileges client resource_name object_type principal
        privileges is_add).2 =
      if is_add then
        (grantParentUsePrivileges client resource_name object_type principal).2
      else []) ∧
    (∀ c ∈ (apply_multiple_privileges client resource_name object_type principal
        privileges is_add).2,
      c.securableType = "catalog" ∨ c.securableType = "schema") ∧
    (∀ p ∈ privileges,
      alookup (apply_multiple_privileges client resource_name object_type
        principal privileges is_add).1 p = some false) := by
  have hv : validSubset object_type privileges = [] := by
    unfold validSubset
    rw [List.filter_eq_nil_iff]
    intro p hp
    simp [h p hp]
  rw [apply_multiple_privileges_eq_of_valid_nil client resource_name object_type
    principal privileges is_add hv]
  refine ⟨rfl, ?_, ?_⟩
  · intro c hc
    cases is_add with
    | false => simp at hc
    | true =>
      simp only [if_pos rfl] at hc
      exact grantParent_calls_securable client resource_name object_type principal
        c (by simpa using hc)
  · intro p hp
    rw [alookup_foldl_dinsert_const]
    simp [hp]

/-- Witness for C10: requesting only the invalid `BOGUS` on a Table leaves
only catalog/schema cascade calls in the trace and reports `BOGUS` as not
applied. -/
theorem C10_witness :
    alookup (apply_multiple_privileges allTrueClient "c.s.t" ObjectType.TABLE "u"
      ["BOGUS"] true).1 "BOGUS" = some false ∧
    (apply_multiple_privileges allTrueClient "c.s.t" ObjectType.TABLE "u"
      ["BOGUS"] true).2 =
      (grantParentUsePrivileges allTrueClient "c.s.t" ObjectType.TABLE "u").2 :=
  ⟨(C10_no_target_call_when_all_invalid allTrueClient "c.s.t" ObjectType.TABLE "u"
      ["BOGUS"] true (by decide)).2.2 "BOGUS" (by decide),
   by
    have hcalls := (C10_no_target_call_when_all_invalid allTrueClient "c.s.t"
      ObjectType.TABLE "u" ["BOGUS"] true (by decide)).1
    simpa using hcalls⟩

/-- C4: the ancestor cascade runs exactly when `is_add` is true and the
type is one of Table/View/Function/Volume.  When it does not run, the
outcome map holds only requested privileges and the trace holds only the
batch call.  When it runs (with a well-formed dotted resource and no key
collision with requested privileges), both ancestor attempts are made and
each is recorded under its synthetic key with its own collaborator verdict
— for *every* collaborator, so a failed catalog-use grant neither blocks
the schema-use attempt nor the main batch call. -/
theorem C4_ancestor_cascade (client : WorkspaceClient) (resource_name : String)
    (object_type : ObjectType) (principal : String) (privileges : List String)
    (is_add : Bool) :
    ((is_add = false ∨ object_type ∉ [ObjectType.TABLE, ObjectType.VIEW,
        ObjectType.FUNCTION, ObjectType.VOLUME]) →
      (∀ k ∈ dkeys (apply_multiple_privileges client resource_name object_type
          principal privileges is_add).1, k ∈ privileges) ∧
      (∀ c ∈ (apply_multiple_privileges client resource_name object_type
          principal privileges is_add).2,
        c = mainGrantCall resource_name object_type principal privileges is_add)) ∧
    (is_add = true →
      object_type ∈ [ObjectType.TABLE, ObjectType.VIEW, ObjectType.FUNCTION,
        ObjectType.VOLUME] →
      2 ≤ (pySplit resource_name '.').length →
      (pySplit resource_name '.').getD 0 "" ≠ "" →
      catUseKey resource_name ∉ privileges →
      schUseKey resource_name ∉ privileges →
      alookup (apply_multiple_privileges client resource_name object_type
          principal privileges is_add).1 (catUseKey resource_name) =
        some (client.grantsUpdateOk (catUseCall resource_name principal)) ∧
      alookup (apply_multiple_privileges client resource_name object_type
          principal privileges is_add).1 (schUseKey resource_name) =
        some (client.grantsUpdateOk (schUseCall resource_name principal)) ∧
      catUseCall resource_name principal ∈
        (apply_multiple_privileges client resource_name object_type principal
          privileges is_add).2 ∧
      schUseCall resource_name principal ∈
        (apply_multiple_privileges client resource_name object_type principal
          privileges is_add).2 ∧
      (validSubset object_type privileges ≠ [] →
        mainGrantCall resource_name object_type principal privileges is_add ∈
          (apply_multiple_privileges client resource_name object_type principal
            privileges is_add).2)) := by
  constructor
  · intro hni
    have hp1 : (if is_add then
        (grantParentUsePrivileges client resource_name object_type principal).1
      else ([] : List (String × Bool))) = [] := by
      rcases hni with hni | hni
      · simp [hni]
      · rw [grantParent_not_eligible client resource_name object_type principal hni]
        cases is_add <;> simp
    have hp2 : (if is_add then
        (grantParentUsePrivileges client resource_name object_type principal).2
      else ([] : List GrantCall)) = [] := by
      rcases hni with hni | hni
      · simp [hni]
      · rw [grantParent_not_eligible client resource_name object_type principal hni]
        cases is_add <;> simp
    by_cases hv : validSubset object_type privileges = []
    · rw [apply_multiple_privileges_eq_of_valid_nil client resource_name object_type
        principal privileges is_add hv]
      constructor
      · intro k hk
        rw [mem_dkeys_foldl_dinsert] at hk
        rcases hk with hk | hk
        · rw [hp1] at hk
          simp [dkeys] at hk
        · exact hk
      · intro c hc
        rw [hp2] at hc
        simp at hc
    · rw [apply_multiple_privileges_eq_of_valid_ne_nil client resource_name object_type
        principal privileges is_add hv]
      constructor
      · intro k hk
        rw [mem_dkeys_foldl_dinsert] at hk
        rcases hk with hk | hk
        · rw [mem_dkeys_foldl_dinsert] at hk
          rcases hk with hk | hk
          · rw [hp1] at hk
            simp [dkeys] at hk
          · exact hk
        · exact (List.mem_filter.mp hk).1
      · intro c hc
        rw [hp2] at hc
        simp at hc
        exact hc
  · intro hadd helig h2 h0 hnc hns
    subst hadd
    have hclosed := grantParent_eligible_closed_form client resource_name object_type
      principal helig h2 h0
    have hparent1 : (grantParentUsePrivileges client resource_name object_type
        principal).1 =
        dinsert (dinsert [] (catUseKey resource_name)
          (client.grantsUpdateOk (catUseCall resource_name principal)))
          (schUseKey resource_name)
          (client.grantsUpdateOk (schUseCall resource_name principal)) :=
      congrArg Prod.fst hclosed
    have hparent2 : (grantParentUsePrivileges client resource_name object_type
        principal).2 =
        [catUseCall resource_name principal, schUseCall resource_name principal] :=
      congrArg Prod.snd hclosed
    have hck : catUseKey resource_name ≠ schUseKey resource_name :=
      useCatalogKey_ne_useSchemaKey _ _
    have hlookup_parent_cat :
        alookup (if true then
          (grantParentUsePrivileges client resource_name object_type principal).1
        else []) (catUseKey resource_name) =
          some (client.grantsUpdateOk (catUseCall resource_name principal)) := by
      rw [if_pos rfl, hparent1, alookup_dinsert_ne _ _ _ _ hck,
        alookup_dinsert_self]
    have hlookup_parent_sch :
        alookup (if true then
          (grantParentUsePrivileges client resource_name object_type principal).1
        else []) (schUseKey resource_name) =
          some (client.grantsUpdateOk (schUseCall resource_name principal)) := by
      rw [if_pos rfl, hparent1, alookup_dinsert_self]
    have hncv : catUseKey resource_name ∉ validSubset object_type privileges :=
      fun hmem => hnc (List.mem_filter.mp hmem).1
    have hnsv : schUseKey resource_name ∉ validSubset object_type privileges :=
      fun hmem => hns (List.mem_filter.mp hmem).1
    by_cases hv : validSubset object_type privileges = []
    · rw [apply_multiple_privileges_eq_of_valid_nil client resource_name object_type
        principal privileges true hv]
      refine ⟨?_, ?_, ?_, ?_, ?_⟩
      · rw [alookup_foldl_dinsert_const, if_neg hnc]
        exact hlookup_parent_cat
      · rw [alookup_foldl_dinsert_const, if_neg hns]
        exact hlookup_parent_sch
      · rw [if_pos rfl, hparent2]
        simp
      · rw [if_pos rfl, hparent2]
        simp
      · intro hvne
        exact absurd hv hvne
    · rw [apply_multiple_privileges_eq_of_valid_ne_nil client resource_name object_type
        principal privileges true hv]
      refine ⟨?_, ?_, ?_, ?_, ?_⟩
      · rw [alookup_foldl_dinsert_const, if_neg hncv,
          alookup_foldl_dinsert_const, if_neg hnc]
        exact hlookup_parent_cat
      · rw [alookup_foldl_dinsert_const, if_neg hnsv,
          alookup_foldl_dinsert_const, if_neg hns]
        exact hlookup_parent_sch
      · rw [if_pos rfl, hparent2]
        simp
      · rw [if_pos rfl, hparent2]
        simp
      · intro _
        simp

/-- Witness for C4: reconciling `SELECT` on Table `c.s.t` with a
collaborator that fails exactly the catalog-scoped grants still records the
schema-use attempt as succeeded, and the main batch call is still made. -/
theorem C4_witness :
    alookup (apply_multiple_privileges catalogGrantFailClient "c.s.t"
      ObjectType.TABLE "u" ["SELECT"] true).1 (catUseKey "c.s.t") = some false ∧
    alookup (apply_multiple_privileges catalogGrantFailClient "c.s.t"
      ObjectType.TABLE "u" ["SELECT"] true).1 (schUseKey "c.s.t") = some true ∧
    mainGrantCall "c.s.t" ObjectType.TABLE "u" ["SELECT"] true ∈
      (apply_multiple_privileges catalogGrantFailClient "c.s.t" ObjectType.TABLE
        "u" ["SELECT"] true).2 := by
  have h := (C4_ancestor_cascade catalogGrantFailClient "c.s.t" ObjectType.TABLE
    "u" ["SELECT"] true).2 rfl (by decide) (by decide) (by decide) (by decide)
    (by decide)
  refine ⟨?_, ?_, h.2.2.2.2 (by decide)⟩
  · have h1 := h.1
    rw [show catalogGrantFailClient.grantsUpdateOk (catUseCall "c.s.t" "u") = false
      from by decide] at h1
    exact h1
  · have h2 := h.2.1
    rw [show catalogGrantFailClient.grantsUpdateOk (schUseCall "c.s.t" "u") = true
      from by decide] at h2
    exact h2

/-- C2: on a three-segment path the resolver probes Table, then Volume,
then Function, returns the first success and Unknown when all three fail;
in particular a path resolvable as both table and volume is classified
Table.  (A probe that raises is a probe whose verdict is `false`.) -/
theorem C2_resolver_priority (client : WorkspaceClient) (object_path : String)
    (h : (pySplit object_path '.').length = 3) :
    (client.tablesGetOk ((pySplit object_path '.').getD 0 "" ++ "." ++
        (pySplit object_path '.').getD 1 "" ++ "." ++
        (pySplit object_path '.').getD 2 "") = true →
      determine_uc_object_type client object_path = ObjectType.TABLE) ∧
    (client.tablesGetOk ((pySplit object_path '.').getD 0 "" ++ "." ++
        (pySplit object_path '.').getD 1 "" ++ "." ++
        (pySplit object_path '.').getD 2 "") = true →
      client.volumesReadOk ((pySplit object_path '.').getD 0 "" ++ "." ++
        (pySplit object_path '.').getD 1 "" ++ "." ++
        (pySplit object_path '.').getD 2 "") = true →
      determine_uc_object_type client object_path = ObjectType.TABLE) ∧
    (client.tablesGetOk ((pySplit object_path '.').getD 0 "" ++ "." ++
        (pySplit object_path '.').getD 1 "" ++ "." ++
        (pySplit object_path '.').getD 2 "") = false →
      client.volumesReadOk ((pySplit object_path '.').getD 0 "" ++ "." ++
        (pySplit object_path '.').getD 1 "" ++ "." ++
        (pySplit object_path '.').getD 2 "") = true →
      determine_uc_object_type client object_path = ObjectType.VOLUME) ∧
    (client.tablesGetOk ((pySplit object_path '.').getD 0 "" ++ "." ++
        (pySplit object_path '.').getD 1 "" ++ "." ++
        (pySplit object_path '.').getD 2 "") = false →
      client.volumesReadOk ((pySplit object_path '.').getD 0 "" ++ "." ++
        (pySplit object_path '.').getD 1 "" ++ "." ++
        (pySplit object_path '.').getD 2 "") = false →
      client.functionsGetOk ((pySplit object_path '.').getD 0 "" ++ "." ++
        (pySplit object_path '.').getD 1 "" ++ "." ++
        (pySplit object_path '.').getD 2 "") = true →
      determine_uc_object_type client object_path = ObjectType.FUNCTION) ∧
    (client.tablesGetOk ((pySplit object_path '.').getD 0 "" ++ "." ++
        (pySplit object_path '.').getD 1 "" ++ "." ++
        (pySplit object_path '.').getD 2 "") = false →
      client.volumesReadOk ((pySplit object_path '.').getD 0 "" ++ "." ++
        (pySplit object_path '.').getD 1 "" ++ "." ++
        (pySplit object_path '.').getD 2 "") = false →
      client.functionsGetOk ((pySplit object_path '.').getD 0 "" ++ "." ++
        (pySplit object_path '.').getD 1 "" ++ "." ++
        (pySplit object_path '.').getD 2 "") = false →
      determine_uc_object_type client object_path = ObjectType.UNKNOWN) := by
  have hne : object_path ≠ "" := by
    intro he
    subst he
    simp [pySplit, pySplitAux] at h
  have h1 : ¬ ((pySplit object_path '.').length = 1) := by omega
  have h2 : ¬ ((pySplit object_path '.').length = 2) := by omega
  unfold determine_uc_object_type
  rw [if_neg hne]
  simp only [if_neg h1, if_neg h2, if_pos h]
  refine ⟨?_, ?_, ?_, ?_, ?_⟩
  · intro ht
    simp only [List.getD, List.get?_eq_getElem?] at ht
    simp [ht]
  · intro ht _
    simp only [List.getD, List.get?_eq_getElem?] at ht
    simp [ht]
  · intro ht hv
    simp only [List.getD, List.get?_eq_getElem?] at ht hv
    simp [ht, hv]
  · intro ht hv hf
    simp only [List.getD, List.get?_eq_getElem?] at ht hv hf
    simp [ht, hv, hf]
  · intro ht hv hf
    simp only [List.getD, List.get?_eq_getElem?] at ht hv hf
    simp [ht, hv, hf]

/-- Witness for C2: only the volume probe succeeds on `c.s.v` — Volume;
every probe succeeds on `c.s.t` — the tie-break picks Table. -/
theorem C2_witness :
    determine_uc_object_type volumeOnlyClient "c.s.v" = ObjectType.VOLUME ∧
    determine_uc_object_type allTrueClient "c.s.t" = ObjectType.TABLE :=
  ⟨(C2_resolver_priority volumeOnlyClient "c.s.v" (by decide)).2.2.1
      (by decide) (by decide),
   (C2_resolver_priority allTrueClient "c.s.t" (by decide)).2.1
      (by decide) (by decide)⟩

/-- Counterexample to C6 as stated: the securable-type mapping sends Model
to `"table"`, not `"registered_model"` (the code has no Model entry, and
`ObjectType.MODEL` is an enum alias of `TABLE`, so the default applies). -/
theorem C6_counterexample :
    ¬ (get_securable_type ObjectType.MODEL = "registered_model") := by decide

/-- C6 (amended): the securable-type mapping is Catalog→"catalog",
Schema→"schema", Table→"table", View→"table", Function→"function",
Volume→"volume", Model→"table", and every other type (including Unknown)
defaults to "table". -/
theorem C6_securable_type_mapping :
    get_securable_type ObjectType.CATALOG = "catalog" ∧
    get_securable_type ObjectType.SCHEMA = "schema" ∧
    get_securable_type ObjectType.TABLE = "table" ∧
    get_securable_type ObjectType.VIEW = "table" ∧
    get_securable_type ObjectType.FUNCTION = "function" ∧
    get_securable_type ObjectType.VOLUME = "volume" ∧
    get_securable_type ObjectType.MODEL = "table" ∧
    (∀ t : ObjectType, t ≠ ObjectType.CATALOG → t ≠ ObjectType.SCHEMA →
      t ≠ ObjectType.TABLE → t ≠ ObjectType.FUNCTION → t ≠ ObjectType.VOLUME →
      get_securable_type t = "table") := by
  refine ⟨by decide, by decide, by decide, by decide, by decide, by decide,
    by decide, ?_⟩
  intro t h1 h2 h3 h4 h5
  cases t <;> first | decide | simp_all

/-- Witness for C6 (amended), at the concrete type Pipeline. -/
theorem C6_witness : get_securable_type ObjectType.PIPELINE = "table" :=
  C6_securable_type_mapping.2.2.2.2.2.2.2 ObjectType.PIPELINE (by decide)
    (by decide) (by decide) (by decide) (by decide)

/-- C7: `validate_privilege` first normalizes case and rejects anything
outside the privilege vocabulary; for a non-Unknown type it is membership
in that type's legal set; for Unknown it is membership in the union of all
types' legal sets; and `ALL_PRIVILEGES` validates for every non-Unknown
type. -/
theorem C7_validate_privilege_contract :
    (∀ (p : String) (t : ObjectType), privilegeOfName (strUpper p) = none →
      validate_privilege p t = false) ∧
    (∀ (p : String) (t : ObjectType) (e : Privilege), t ≠ ObjectType.UNKNOWN →
      privilegeOfName (strUpper p) = some e →
      validate_privilege p t = (get_privileges_for_resource_type t).contains e) ∧
    (∀ (p : String) (e : Privilege), privilegeOfName (strUpper p) = some e →
      validate_privilege p ObjectType.UNKNOWN =
        unionAllTypePrivileges.contains e) ∧
    (∀ t : ObjectType, t ≠ ObjectType.UNKNOWN →
      validate_privilege "ALL_PRIVILEGES" t = true) := by
  refine ⟨?_, ?_, ?_, ?_⟩
  · intro p t h
    simp [validate_privilege, h]
  · intro p t e ht h
    simp [validate_privilege, h, ht]
  · intro p e h
    have hall : get_all_privileges.contains e = unionAllTypePrivileges.contains e := by
      cases e <;> decide
    simp only [validate_privilege, h]
    rw [if_neg (by simp)]
    exact hall
  · intro t ht
    cases t <;> decide

/-- Witness for C7 at concrete inputs: `ALL_PRIVILEGES` on Table, and the
membership reading of `validate` for lowercase `select` on Table. -/
theorem C7_witness :
    validate_privilege "ALL_PRIVILEGES" ObjectType.TABLE = true ∧
    validate_privilege "select" ObjectType.TABLE =
      (get_privileges_for_resource_type ObjectType.TABLE).contains
        Privilege.SELECT :=
  ⟨C7_validate_privilege_contract.2.2.2 ObjectType.TABLE (by decide),
   C7_validate_privilege_contract.2.1 "select" ObjectType.TABLE Privilege.SELECT
     (by decide) (by decide)⟩

/-! ## Orchestrator lemmas -/

theorem applyRequestItemsLoop_eq_map (client : WorkspaceClient)
    (is_add_operation dry_run : Bool) (items : List ServiceRequestItem) :
    applyRequestItemsLoop client is_add_operation dry_run items =
      items.map (processRequestItem client is_add_operation dry_run) := by
  induction items with
  | nil => rfl
  | cons x xs ih => simp [applyRequestItemsLoop, ih]

theorem processRequestItem_applied_is_add (client : WorkspaceClient)
    (is_add_operation dry_run : Bool) (item : ServiceRequestItem)
    (vr : ValidationResults) (inv : GrantInvocation)
    (res : List (String × Bool) × List GrantCall)
    (h : processRequestItem client is_add_operation dry_run item =
      .applied vr inv res) :
    inv.is_add = is_add_operation := by
  unfold processRequestItem at h
  split at h
  · exact ItemOutcome.noConfusion h
  · dsimp only at h
    split at h
    · exact ItemOutcome.noConfusion h
    · split at h
      · injection h with h1 h2 h3
        subst h2
        rfl
      · exact ItemOutcome.noConfusion h

/-- Counterexample to C5 as stated: on a request whose status is the
string `"ACTIVE"` (not equal to the exact string `"active"`), the
orchestrator still invokes the reconciler with `is_add = true` for both
reconciled items, because the code lowercases the status before
comparing. -/
theorem C5_counterexample :
    sampleServiceRequest.request_status = Yaml.str "ACTIVE" ∧
    ("ACTIVE" : String) ≠ "active" ∧
    (match apply_service_request_privileges sampleServiceRequest allTrueClient
        false with
     | .ok report => report.filterMap (fun o => match o with
         | .applied _ inv _ => some inv.is_add
         | _ => none)
     | .error _ => []) = [true, true] :=
  ⟨rfl, by decide, by decide⟩

/-- C5 (amended): with `is_dry_run` false, every reconciler invocation uses
`is_add = (request_status.lower() == "active")` — the comparison is
case-insensitive, so any status that does not case-insensitively equal
`"active"` is treated as a removal. -/
theorem C5_is_add_case_insensitive (sr : ServiceRequest) (client : WorkspaceClient)
    (status : String) (h : sr.request_status = Yaml.str status)
    (report : List ItemOutcome)
    (hr : apply_service_request_privileges sr client false = .ok report) :
    ∀ o ∈ report, ∀ (vr : ValidationResults) (inv : GrantInvocation)
      (res : List (String × Bool) × List GrantCall),
      o = .applied vr inv res → inv.is_add = (strLower status == "active") := by
  intro o ho vr inv res heq
  unfold apply_service_request_privileges at hr
  rw [h] at hr
  injection hr with hr
  subst hr
  rw [applyRequestItemsLoop_eq_map] at ho
  obtain ⟨item, _, hproc⟩ := List.mem_map.mp ho
  subst heq
  exact processRequestItem_applied_is_add client (strLower status == "active")
    false item vr inv res hproc

/-- Witness for C5 (amended): the first reconciled item of the sample run
carries `is_add = true`, which the theorem equates with the
case-insensitive comparison of `"ACTIVE"`. -/
theorem C5_witness : (strLower "ACTIVE" == "active") = true := by
  have h := C5_is_add_case_insensitive sampleServiceRequest allTrueClient "ACTIVE"
    rfl sampleReport rfl
  have h2 := h (sampleReport.getD 0 .skippedNoPrivileges) (by decide)
    { valid_privileges := ["SELECT"], invalid_privileges := [] }
    { resource_name := "c.s.t", object_type := .TABLE, principal := "u1",
      privileges := ["SELECT"], is_add := true }
    (apply_multiple_privileges allTrueClient "c.s.t" ObjectType.TABLE "u1"
      ["SELECT"] true)
    (by decide)
  exact h2.symm

/-- C9: the orchestrator's report is the independent item-by-item map of
the loop body — one outcome per item, each determined by that item alone,
so an error absorbed while processing one item (recorded as `itemError` by
the per-item catch) never affects any other item's outcome. -/
theorem C9_item_isolation (sr : ServiceRequest) (client : WorkspaceClient)
    (dry_run : Bool) (status : String) (report : List ItemOutcome)
    (h : sr.request_status = Yaml.str status)
    (hr : apply_service_request_privileges sr client dry_run = .ok report) :
    report = sr.requests.map
      (processRequestItem client (strLower status == "active") dry_run) ∧
    report.length = sr.requests.length ∧
    (∀ i : Nat, report.get? i = (sr.requests.get? i).map
      (processRequestItem client (strLower status == "active") dry_run)) := by
  unfold apply_service_request_privileges at hr
  rw [h] at hr
  injection hr with hr
  subst hr
  rw [applyRequestItemsLoop_eq_map]
  refine ⟨rfl, by simp, ?_⟩
  intro i
  simp

/-- Witness for C9: in the 3-item sample request, item 2 raises during
validation and is recorded `itemError`, while items 1 and 3 still receive
exactly their stand-alone outcomes. -/
theorem C9_witness :
    sampleReport.length = 3 ∧
    sampleReport.get? 1 = some ItemOutcome.itemError ∧
    sampleReport.get? 0 = (sampleServiceRequest.requests.get? 0).map
      (processRequestItem allTrueClient (strLower "ACTIVE" == "active") false) ∧
    sampleReport.get? 2 = (sampleServiceRequest.requests.get? 2).map
      (processRequestItem allTrueClient (strLower "ACTIVE" == "active") false) := by
  have h := C9_item_isolation sampleServiceRequest allTrueClient false "ACTIVE"
    sampleReport rfl rfl
  refine ⟨?_, ?_, h.2.2 0, h.2.2 2⟩
  · rw [h.2.1]
    rfl
  · rw [h.2.2 1]
    decide

/-! ## Parser lemmas -/

/-- A successful item-loop run certifies every element's shape. -/
theorem parseRequestItems_ok_shape (xs : List Yaml) :
    ∀ (i : Nat) (l : List ServiceRequestItem),
      parseRequestItems i xs = .ok l → ∀ y ∈ xs, itemShapeOk y := by
  induction xs with
  | nil => intro i l _ y hy; simp at hy
  | cons y rest ih =>
    intro i l h z hz
    unfold parseRequestItems at h
    split at h
    case h_2 => exact Except.noConfusion h
    case h_1 request_data =>
      split at h
      case h_2 =>
        dsimp only at h
        split at h
        · exact Except.noConfusion h
        · exact Except.noConfusion h
      case h_1 principal_data hpd =>
        dsimp only at h
        split at h
        · exact Except.noConfusion h
        · rename_i hmiss
          rw [not_ne_iff] at hmiss
          have hkeys : ∀ k ∈ required_request_keys,
              (alookup request_data k).isSome := by
            intro k hk
            have hnf := List.filter_eq_nil_iff.mp hmiss k hk
            cases h2 : alookup request_data k with
            | none => rw [h2] at hnf; simp at hnf
            | some w => simp
          split at h
          · exact Except.noConfusion h
          · rename_i hpids
            rw [Bool.or_eq_true, not_or] at hpids
            split at h
            case h_2 => exact Except.noConfusion h
            case h_1 tail htail =>
              rcases List.mem_cons.mp hz with hzy | hzr
              · subst hzy
                have hpr : alookup request_data "principal" =
                    some (.map principal_data) := by
                  have hps := hkeys "principal" (by simp [required_request_keys])
                  cases hlook : alookup request_data "principal" with
                  | none => rw [hlook] at hps; simp at hps
                  | some w =>
                    rw [hlook] at hpd
                    simp at hpd
                    rw [hpd]
                refine ⟨request_data, rfl,
                  hkeys "principal" (by simp [required_request_keys]),
                  hkeys "resource" (by simp [required_request_keys]),
                  principal_data, hpr, ?_, ?_⟩
                · cases h2 : alookup principal_data "type" with
                  | none => exact absurd (by rw [h2]; rfl) hpids.1
                  | some w => simp
                · cases h2 : alookup principal_data "id" with
                  | none => exact absurd (by rw [h2]; rfl) hpids.2
                  | some w => simp
              · exact ih (i + 1) tail htail z hzr

/-- C8: a document missing any of the four required top-level keys fails
with an error naming exactly the missing set; a non-sequence `requests`
fails; and a successful parse certifies that `requests` was a sequence of
well-shaped items (so a bad element, missing item key, non-map principal or
principal lacking type/id always fails) — in every failing case the result
is an error, never a partial `ServiceRequest`. -/
theorem C8_parser_schema_errors :
    (∀ (doc : List (String × Yaml)) (fp : String),
      required_keys.filter (fun k => (alookup doc k).isNone) ≠ [] →
      parse_yaml_content doc fp = .error
        (.missingRequiredKeys
          (required_keys.filter (fun k => (alookup doc k).isNone)))) ∧
    (∀ (doc : List (String × Yaml)) (fp : String) (v : Yaml),
      required_keys.filter (fun k => (alookup doc k).isNone) = [] →
      alookup doc "requests" = some v →
      (∀ xs, v ≠ .seq xs) →
      parse_yaml_content doc fp = .error .requestsMustBeList) ∧
    (∀ (doc : List (String × Yaml)) (fp : String) (sr : ServiceRequest),
      parse_yaml_content doc fp = .ok sr →
      ∃ xs, alookup doc "requests" = some (.seq xs) ∧ ∀ y ∈ xs, itemShapeOk y) := by
  refine ⟨?_, ?_, ?_⟩
  · intro doc fp h
    unfold parse_yaml_content
    rw [if_pos h]
  · intro doc fp v h hv hvs
    unfold parse_yaml_content
    rw [if_neg (not_ne_iff.mpr h), hv]
    cases v with
    | seq xs => exact absurd rfl (hvs xs)
    | str s => rfl
    | num n => rfl
    | bool b => rfl
    | null => rfl
    | map kvs => rfl
  · intro doc fp sr h
    unfold parse_yaml_content at h
    split at h
    case h_1 requests_data hreq =>
      dsimp only at h
      split at h
      · exact Except.noConfusion h
      · split at h
        case h_1 => exact Except.noConfusion h
        case h_2 reqs hparse =>
          refine ⟨requests_data, ?_, parseRequestItems_ok_shape requests_data 0
            reqs hparse⟩
          cases hlook : alookup doc "requests" with
          | none => rw [hlook] at hreq; simp at hreq
          | some w =>
            rw [hlook] at hreq
            simp at hreq
            rw [hreq]
    case h_2 =>
      dsimp only at h
      split at h
      · exact Except.noConfusion h
      · exact Except.noConfusion h

/-- Witness for C8: a document lacking `request-status` and `requests`
fails naming exactly those two keys; the well-formed sample document
parses, so its single item is well-shaped. -/
theorem C8_witness :
    parse_yaml_content [("request-name", .str "R"), ("request-type", .str "t")]
      "f.yml" =
      .error (.missingRequiredKeys ["request-status", "requests"]) ∧
    itemShapeOk (Yaml.map [("principal", .map [("type", .str "user"),
      ("id", .str "u1")]), ("resource", .str "c.s.t"),
      ("privileges", .str "SELECT")]) := by
  constructor
  · have h := C8_parser_schema_errors.1
      [("request-name", .str "R"), ("request-type", .str "t")] "f.yml"
      (by decide)
    have hmiss : required_keys.filter (fun k =>
        (alookup [("request-name", Yaml.str "R"), ("request-type", Yaml.str "t")]
          k).isNone) = ["request-status", "requests"] := by decide
    rw [hmiss] at h
    exact h
  · have h3 := C8_parser_schema_errors.2.2 sampleDoc "f.yml"
    have hok : (parse_yaml_content sampleDoc "f.yml").isOk = true := rfl
    cases hres : parse_yaml_content sampleDoc "f.yml" with
    | error e =>
      rw [hres] at hok
      exact Bool.noConfusion hok
    | ok sr =>
      obtain ⟨xs, hxs, hall⟩ := h3 sr hres
      have hcomp : alookup sampleDoc "requests" =
          some (Yaml.seq [Yaml.map [("principal", .map [("type", .str "user"),
            ("id", .str "u1")]), ("resource", .str "c.s.t"),
            ("privileges", .str "SELECT")]]) := rfl
      rw [hcomp] at hxs
      injection hxs with hxs2
      injection hxs2 with hxs3
      exact hall _ (by rw [← hxs3]; simp)

end DatabricksPrivileges
